import Mathlib

/-!
Shallow embedding of the volumio rotary-encoder daemon (src/main.py).

The daemon decodes a two-pin quadrature rotary encoder into turn deltas,
debounces a push button, queues deltas from interrupt callbacks, and has a
main loop drain the queue and drive an external `volumio` volume backend.

Conventions of the embedding:
- GPIO channels are pin numbers (`Nat`), with the concrete pins `GPIO_A = 6`
  and `GPIO_B = 13` from the source.
- Logic levels are `Nat` (the source compares them with the integer 1).
- The mutable object state of `RotaryEncoder` (`lastGpio`, `levA`, `levB`)
  becomes `EncoderState`; `_callback` becomes a state transformer returning
  the optionally emitted delta.
- The `Volume` object together with the external `volumio` backend becomes
  `VolState`.  The backend is modelled from the external-interface contract:
  `volumio volume <n>` stores `n` as the backend volume, `volumio volume`
  with no argument reports the stored backend volume, `volumio volume toggle`
  toggles mute.  `backendFail` models the external command failing, in which
  case `subprocess.check_output` raises (an exception) while `subprocess.call`
  merely returns a nonzero exit status that the source ignores.
- Python exceptions are modelled by `Except VolState VolState`: the error
  payload is the object state at the moment the exception escapes (Python
  mutations performed before the raise are not rolled back).
- `cmds` is the trace of external backend command invocations, in order.
-/

/-- Pin of encoder channel A (BCM numbering), from the source. -/
def GPIO_A : Nat := 6

/-- Pin of encoder channel B (BCM numbering), from the source. -/
def GPIO_B : Nat := 13

/-- Minimum volume constant from the source. -/
def VOL_MIN : Int := 0

/-- Maximum volume constant from the source. -/
def VOL_MAX : Int := 100

/-- Volume increment constant from the source. -/
def INCREMENT : Int := 1

/-- The mutable fields of `RotaryEncoder`: the last pin that fired
(`self.lastGpio`, initially `None`) and the last seen levels of the two
channels (`self.levA`, `self.levB`, initially 0). -/
structure EncoderState where
  lastGpio : Option Nat
  levA : Nat
  levB : Nat
deriving DecidableEq, Repr

/-- Encoder state right after `RotaryEncoder.__init__`. -/
def initEncoder : EncoderState := ⟨none, 0, 0⟩

namespace RotaryEncoder

/-- `RotaryEncoder._callback(channel)` with the level already read from the
pin: records the level (any channel other than `GPIO_A` falls into the
`else` branch and is recorded as channel B), returns early when the same
channel fired last (debounce), otherwise records the channel as last fired
and emits `1` when channel A just went to 1 with B already at 1, `-1` when
channel B just went to 1 with A already at 1, and nothing otherwise. -/
def callback (s : EncoderState) (channel level : Nat) : EncoderState × Option Int :=
  let s1 := if channel = GPIO_A then { s with levA := level } else { s with levB := level }
  if s1.lastGpio = some channel then (s1, none)
  else
    let s2 := { s1 with lastGpio := some channel }
    if channel = GPIO_A ∧ level = 1 then
      if s2.levB = 1 then (s2, some 1) else (s2, none)
    else if channel = GPIO_B ∧ level = 1 then
      if s2.levA = 1 then (s2, some (-1)) else (s2, none)
    else (s2, none)

/-- Feed a list of `(channel, level)` edge notifications through `callback`,
collecting the emitted deltas in order. -/
def runEdges (es : List (Nat × Nat)) (s : EncoderState) : EncoderState × List Int :=
  match es with
  | [] => (s, [])
  | (ch, lv) :: rest =>
    let r := callback s ch lv
    let r2 := runEdges rest r.1
    (r2.1, r.2.toList ++ r2.2)

end RotaryEncoder

/-- One external invocation of the `volumio` command, as recorded in the
trace: a volume query (`volumio volume`), an absolute set
(`volumio volume <n>`), or a mute toggle (`volumio volume toggle`). -/
inductive BCmd where
  | query : BCmd
  | setVol : Int → BCmd
  | toggle : BCmd
deriving DecidableEq, Repr, BEq

/-- The argument passed to `Volume.volumio`: either the integer volume or
the string literal toggle. -/
inductive VolCmd where
  | num : Int → VolCmd
  | toggle : VolCmd
deriving DecidableEq, Repr

/-- The `Volume` object state together with the modelled external backend:
`volume` is `self.volume`; `backendVol` is the volume the external `volumio`
service currently holds and reports when queried; `backendMuted` is its mute
state; `backendFail` models the external command failing; `cmds` is the trace
of backend invocations issued so far. -/
structure VolState where
  volume : Int
  backendVol : Int
  backendMuted : Bool
  backendFail : Bool
  cmds : List BCmd
deriving DecidableEq, Repr

namespace Volume

/-- `Volume.clamp`: `max(min(MAX, v), MIN)`. -/
def clamp (v : Int) : Int := max (min VOL_MAX v) VOL_MIN

/-- `Volume.volumio(cmd)`: runs `volumio volume <cmd>` via `subprocess.call`.
The exit status is ignored, so this never raises; the backend state updates
only when the external command succeeds. -/
def volumio (s : VolState) (cmd : VolCmd) : VolState :=
  match cmd with
  | VolCmd.num n =>
    if s.backendFail then { s with cmds := s.cmds ++ [BCmd.setVol n] }
    else { s with backendVol := n, cmds := s.cmds ++ [BCmd.setVol n] }
  | VolCmd.toggle =>
    if s.backendFail then { s with cmds := s.cmds ++ [BCmd.toggle] }
    else { s with backendMuted := !s.backendMuted, cmds := s.cmds ++ [BCmd.toggle] }

/-- `Volume._sync(v=None)`: when `v` is falsy (`None` or the integer 0) it
queries the backend with `subprocess.check_output` (which raises when the
external command fails) and stores the reported volume; otherwise it stores
`v`. -/
def sync (s : VolState) (v : Option Int) : Except VolState VolState :=
  if v = none ∨ v = some 0 then
    let s1 := { s with cmds := s.cmds ++ [BCmd.query] }
    if s1.backendFail then Except.error s1
    else Except.ok { s1 with volume := s1.backendVol }
  else Except.ok { s with volume := v.getD 0 }

/-- `Volume.set_volume(v)`: stores the clamped value, re-syncs from it, then
forwards the (post-sync) stored volume to the backend. -/
def set_volume (s : VolState) (v : Int) : Except VolState VolState :=
  let s1 := { s with volume := clamp v }
  match sync s1 (some s1.volume) with
  | Except.error e => Except.error e
  | Except.ok s2 => Except.ok (volumio s2 (VolCmd.num s2.volume))

/-- `Volume.up`. -/
def up (s : VolState) : Except VolState VolState := set_volume s (s.volume + INCREMENT)

/-- `Volume.down`. -/
def down (s : VolState) : Except VolState VolState := set_volume s (s.volume - INCREMENT)

/-- `Volume.toggle`: sends the toggle command; never raises. -/
def toggle (s : VolState) : VolState := volumio s VolCmd.toggle

end Volume

/-- `handle_delta(delta)` from the main block: delta 1 turns the volume up,
anything else turns it down. -/
def handle_delta (delta : Int) (s : VolState) : Except VolState VolState :=
  if delta = 1 then Volume.up s else Volume.down s

/-- `consume_queue()` applied to the drained batch: handles each delta in
FIFO order; an exception from `handle_delta` propagates immediately, ending
the processing of the batch. -/
def consume_queue (q : List Int) (s : VolState) : Except VolState VolState :=
  match q with
  | [] => Except.ok s
  | d :: rest =>
    match handle_delta d s with
    | Except.ok s1 => consume_queue rest s1
    | Except.error e => Except.error e

/-- The shared state of the main block visible to the interrupt callbacks:
the FIFO `QUEUE` of pending deltas, the `EVENT` wake flag, and the `Volume`
object `v`. -/
structure SysState where
  queue : List Int
  wake : Bool
  vol : VolState
deriving DecidableEq, Repr

/-- `on_turn(delta)`: producer callback for encoder turns; enqueues the delta
and sets the wake event. -/
def on_turn (delta : Int) (s : SysState) : SysState :=
  { s with queue := s.queue ++ [delta], wake := true }

/-- `on_press(value)`: producer callback for button presses; toggles mute
directly on the `Volume` object and sets the wake event. -/
def on_press (value : Nat) (s : SysState) : SysState :=
  { s with vol := Volume.toggle s.vol, wake := true }

/-- Control position of the consumer inside the `while True` main loop:
blocked in `EVENT.wait(1200)`; inside `consume_queue`; between the final
empty-queue check of `consume_queue` and `EVENT.clear()`; or dead after an
uncaught exception. -/
inductive LoopPC where
  | waiting : LoopPC
  | consuming : LoopPC
  | clearing : LoopPC
  | crashed : LoopPC
deriving DecidableEq, Repr

/-- A state of the interleaved producer/consumer system: the consumer's
control position plus the shared `SysState`. -/
structure LoopState where
  pc : LoopPC
  sys : SysState
deriving DecidableEq, Repr

/-- Consumer-only small steps of the main loop: the wait returns (the wake
flag is set, or the 1200-second timeout fires, so this step is always
enabled); `consume_queue` pops and handles one delta (successfully or
raising); the final emptiness check exits the `while not QUEUE.empty()`
loop; `EVENT.clear()` clears the wake flag and the loop returns to waiting. -/
inductive CStep : LoopState → LoopState → Prop where
  | wake_return (s : SysState) :
      CStep ⟨LoopPC.waiting, s⟩ ⟨LoopPC.consuming, s⟩
  | consume_ok (s : SysState) (d : Int) (rest : List Int) (v1 : VolState) :
      s.queue = d :: rest → handle_delta d s.vol = Except.ok v1 →
      CStep ⟨LoopPC.consuming, s⟩ ⟨LoopPC.consuming, { s with queue := rest, vol := v1 }⟩
  | consume_err (s : SysState) (d : Int) (rest : List Int) (e : VolState) :
      s.queue = d :: rest → handle_delta d s.vol = Except.error e →
      CStep ⟨LoopPC.consuming, s⟩ ⟨LoopPC.crashed, { s with queue := rest, vol := e }⟩
  | empty_check (s : SysState) :
      s.queue = [] → CStep ⟨LoopPC.consuming, s⟩ ⟨LoopPC.clearing, s⟩
  | clear (s : SysState) :
      CStep ⟨LoopPC.clearing, s⟩ ⟨LoopPC.waiting, { s with wake := false }⟩

/-- A step of the whole interleaved system: a consumer step, or a producer
callback (`on_turn` from an encoder interrupt, `on_press` from a button
interrupt) firing at any moment. -/
inductive LStep : LoopState → LoopState → Prop where
  | consumer (a b : LoopState) : CStep a b → LStep a b
  | push (p : LoopPC) (s : SysState) (d : Int) :
      LStep ⟨p, s⟩ ⟨p, on_turn d s⟩
  | press (p : LoopPC) (s : SysState) (value : Nat) :
      LStep ⟨p, s⟩ ⟨p, on_press value s⟩

/-- The state of the system right after startup, before the first iteration
of the main loop: empty queue, wake flag clear, consumer about to wait. -/
def initLoop (v0 : VolState) : LoopState := ⟨LoopPC.waiting, ⟨[], false, v0⟩⟩

/-- Reachability of a system state from startup with initial volume state
`v0`, under arbitrary interleaving of producer and consumer steps. -/
def ReachableLoop (v0 : VolState) (s : LoopState) : Prop :=
  Relation.ReflTransGen LStep (initLoop v0) s

/-- Edge notifications of one clockwise detent, the canonical Gray sequence
00 → 10 → 11 → 01 → 00 on the (A, B) levels: each transition is one
interrupt on the pin whose level changed, carrying the new level. -/
def cwCycle : List (Nat × Nat) := [(GPIO_A, 1), (GPIO_B, 1), (GPIO_A, 0), (GPIO_B, 0)]

/-- Edge notifications of one counter-clockwise detent, the reversed Gray
sequence 00 → 01 → 11 → 10 → 00 on the (A, B) levels. -/
def ccwCycle : List (Nat × Nat) := [(GPIO_B, 1), (GPIO_A, 1), (GPIO_B, 0), (GPIO_A, 0)]

/-- `n` consecutive detents of the given cycle. -/
def detents (n : Nat) (c : List (Nat × Nat)) : List (Nat × Nat) :=
  (List.replicate n c).flatten

/-- Local and backend volume both within the configured range (the data
model declares `VolumeState.current` to lie in `[MIN, MAX]`, and the backend
volume is only ever a value previously set or the synced startup value). -/
def InRange (s : VolState) : Prop :=
  0 ≤ s.volume ∧ s.volume ≤ 100 ∧ 0 ≤ s.backendVol ∧ s.backendVol ≤ 100

/-- Range invariant on an `Except` outcome: it holds for the resulting state
on normal return and for the object state at the escaped exception. -/
def ERng (r : Except VolState VolState) : Prop :=
  match r with
  | Except.ok s => InRange s
  | Except.error e => InRange e

/-- The stored volume of an `Except` outcome (of the result on normal
return, of the object state at the raise on an exception). -/
def exVolume (r : Except VolState VolState) : Int :=
  match r with
  | Except.ok s => s.volume
  | Except.error e => e.volume

/-- The object state of an `Except` outcome. -/
def exState (r : Except VolState VolState) : VolState :=
  match r with
  | Except.ok s => s
  | Except.error e => e

/-- A healthy volume state at volume 50, in sync with the backend, with an
empty command trace. -/
def volEx : VolState := ⟨50, 50, false, false, []⟩

/-- A healthy volume state at volume 1, in sync with the backend. -/
def volLow : VolState := ⟨1, 1, false, false, []⟩

/-- A volume state at volume 1 whose external `volumio` command fails. -/
def volFail : VolState := ⟨1, 1, false, true, []⟩

/-- The object state at the moment the backend-query exception escapes
`handle_delta (-1)` from `volFail`: the volume was already overwritten with
`clamp(0) = 0` and the failed query is in the trace. -/
def c7err : VolState := ⟨0, 1, false, true, [BCmd.query]⟩

/-- The deltas of the end-to-end scenario: ten clockwise ticks followed by
sixty counter-clockwise ticks. -/
def c3turns : List Int := List.replicate 10 1 ++ List.replicate 60 (-1)

/-- The volume state after feeding the end-to-end scenario's seventy turn
deltas through `consume_queue`, starting at volume 50. -/
def c3after : VolState := exState (consume_queue c3turns volEx)

/-- A shared main-block state with an empty queue, a clear wake flag, and a
healthy volume object. -/
def sysEx : SysState := ⟨[], false, volEx⟩

/-- The raced state: the consumer is back in `EVENT.wait`, the queue holds
one delta, and the wake flag is clear, because a push landed between the
consumer's final emptiness check and its `EVENT.clear()`. -/
def c8bad : LoopState := ⟨LoopPC.waiting, ⟨[1], false, volEx⟩⟩

/-- The encoder state with channel A high, used to probe a notification on
a pin that is neither `GPIO_A` nor `GPIO_B`. -/
def encEx : EncoderState := ⟨none, 1, 0⟩

/-! ### Decoder lemmas -/

/-- After any callback, the channel that just fired is recorded as the last
fired channel (in the debounced branch it already was). -/
theorem callback_lastGpio (s : EncoderState) (ch lv : Nat) :
    ((RotaryEncoder.callback s ch lv).1).lastGpio = some ch := by
  by_cases hA : ch = GPIO_A <;> by_cases hd : s.lastGpio = some ch <;>
    simp [RotaryEncoder.callback, hA, hd] <;> split_ifs <;> simp_all

/-- A callback on the channel that fired last emits nothing. -/
theorem callback_debounced_none (s : EncoderState) (ch lv : Nat)
    (h : s.lastGpio = some ch) : (RotaryEncoder.callback s ch lv).2 = none := by
  by_cases hA : ch = GPIO_A <;> simp [RotaryEncoder.callback, hA, h]

/-- Unfolding equation for `runEdges` on a cons cell. -/
theorem runEdges_cons (ch lv : Nat) (rest : List (Nat × Nat)) (s : EncoderState) :
    RotaryEncoder.runEdges ((ch, lv) :: rest) s =
      ((RotaryEncoder.runEdges rest (RotaryEncoder.callback s ch lv).1).1,
       (RotaryEncoder.callback s ch lv).2.toList ++
         (RotaryEncoder.runEdges rest (RotaryEncoder.callback s ch lv).1).2) := rfl

/-- Repeated notifications on the channel that already fired last emit no
event at all, whatever the levels. -/
theorem runEdges_same_channel_nil (ch : Nat) (lvs : List Nat) (s : EncoderState)
    (h : s.lastGpio = some ch) :
    (RotaryEncoder.runEdges (lvs.map fun l => (ch, l)) s).2 = [] := by
  induction lvs generalizing s with
  | nil => rfl
  | cons l rest ih =>
    simp only [List.map, runEdges_cons]
    rw [callback_debounced_none s ch l h, ih _ (callback_lastGpio s ch l)]
    rfl

/-- Splitting a run of edge notifications at an append. -/
theorem runEdges_append (l1 l2 : List (Nat × Nat)) (s : EncoderState) :
    RotaryEncoder.runEdges (l1 ++ l2) s =
      ((RotaryEncoder.runEdges l2 (RotaryEncoder.runEdges l1 s).1).1,
       (RotaryEncoder.runEdges l1 s).2 ++
         (RotaryEncoder.runEdges l2 (RotaryEncoder.runEdges l1 s).1).2) := by
  induction l1 generalizing s with
  | nil => simp [RotaryEncoder.runEdges]
  | cons e rest ih =>
    obtain ⟨ch, lv⟩ := e
    simp [runEdges_cons, ih, List.append_assoc]

/-- The two encoder pins are distinct. -/
theorem pins_ne : GPIO_A ≠ GPIO_B := by decide

/-- The level recorded into `levA`: only a notification on channel A writes
it. -/
theorem callback_levA (s : EncoderState) (ch lv : Nat) :
    (RotaryEncoder.callback s ch lv).1.levA = if ch = GPIO_A then lv else s.levA := by
  by_cases hA : ch = GPIO_A <;> by_cases hd : s.lastGpio = some ch <;>
    simp [RotaryEncoder.callback, hA, hd] <;> split_ifs <;> simp_all

/-- The level recorded into `levB`: any notification not on channel A
writes it. -/
theorem callback_levB (s : EncoderState) (ch lv : Nat) :
    (RotaryEncoder.callback s ch lv).1.levB = if ch = GPIO_A then s.levB else lv := by
  by_cases hA : ch = GPIO_A <;> by_cases hd : s.lastGpio = some ch <;>
    simp [RotaryEncoder.callback, hA, hd] <;> split_ifs <;> simp_all

/-- The emission table of a non-debounced callback, for any channel. -/
theorem callback_emit (s : EncoderState) (ch lv : Nat) (hd : s.lastGpio ≠ some ch) :
    (RotaryEncoder.callback s ch lv).2 =
      (if ch = GPIO_A ∧ lv = 1 ∧ s.levB = 1 then some 1
       else if ch = GPIO_B ∧ lv = 1 ∧ s.levA = 1 then some (-1) else none) := by
  by_cases hA : ch = GPIO_A <;>
    simp [RotaryEncoder.callback, hA, hd] <;> split_ifs <;> simp_all [pins_ne]

/-- C1: a callback on channel A or B first records the level into the
matching level field; when the same channel fired last it emits nothing and
leaves the last-fired channel unchanged; otherwise it records the channel as
last fired and emits exactly `+1` when A just reached 1 with B already 1,
exactly `-1` when B just reached 1 with A already 1, and nothing in every
other combination; consequently any run of notifications on one fixed
channel emits at most one event. -/
theorem c1_callback_contract (ch lv : Nat) (s : EncoderState)
    (h : ch = GPIO_A ∨ ch = GPIO_B) :
    ((RotaryEncoder.callback s ch lv).1.levA = if ch = GPIO_A then lv else s.levA) ∧
    ((RotaryEncoder.callback s ch lv).1.levB = if ch = GPIO_A then s.levB else lv) ∧
    (s.lastGpio = some ch →
      (RotaryEncoder.callback s ch lv).2 = none ∧
      (RotaryEncoder.callback s ch lv).1.lastGpio = s.lastGpio) ∧
    (s.lastGpio ≠ some ch →
      (RotaryEncoder.callback s ch lv).1.lastGpio = some ch ∧
      (RotaryEncoder.callback s ch lv).2 =
        (if ch = GPIO_A ∧ lv = 1 ∧ s.levB = 1 then some 1
         else if ch = GPIO_B ∧ lv = 1 ∧ s.levA = 1 then some (-1) else none)) ∧
    (∀ lvs : List Nat,
      (RotaryEncoder.runEdges (lvs.map fun l => (ch, l)) s).2.length ≤ 1) := by
  refine ⟨callback_levA s ch lv, callback_levB s ch lv,
    fun hd => ⟨callback_debounced_none s ch lv hd, by rw [callback_lastGpio, hd]⟩,
    fun hd => ⟨callback_lastGpio s ch lv, callback_emit s ch lv hd⟩, ?_⟩
  intro lvs
  cases lvs with
  | nil => simp [RotaryEncoder.runEdges]
  | cons l rest =>
    simp only [List.map, runEdges_cons, List.length_append]
    rw [runEdges_same_channel_nil ch rest _ (callback_lastGpio s ch l)]
    rcases h2 : (RotaryEncoder.callback s ch l).2 with _ | d <;> simp

/-- Witness for C1 at channel A, level 1, from the state with A high. -/
theorem c1_callback_contract_witness :
    (GPIO_A = GPIO_A ∨ GPIO_A = GPIO_B) ∧
    (((RotaryEncoder.callback encEx GPIO_A 1).1.levA = if GPIO_A = GPIO_A then 1 else encEx.levA) ∧
    ((RotaryEncoder.callback encEx GPIO_A 1).1.levB = if GPIO_A = GPIO_A then encEx.levB else 1) ∧
    (encEx.lastGpio = some GPIO_A →
      (RotaryEncoder.callback encEx GPIO_A 1).2 = none ∧
      (RotaryEncoder.callback encEx GPIO_A 1).1.lastGpio = encEx.lastGpio) ∧
    (encEx.lastGpio ≠ some GPIO_A →
      (RotaryEncoder.callback encEx GPIO_A 1).1.lastGpio = some GPIO_A ∧
      (RotaryEncoder.callback encEx GPIO_A 1).2 =
        (if GPIO_A = GPIO_A ∧ 1 = 1 ∧ encEx.levB = 1 then some 1
         else if GPIO_A = GPIO_B ∧ 1 = 1 ∧ encEx.levA = 1 then some (-1) else none)) ∧
    (∀ lvs : List Nat,
      (RotaryEncoder.runEdges (lvs.map fun l => (GPIO_A, l)) encEx).2.length ≤ 1)) :=
  ⟨Or.inl rfl, c1_callback_contract GPIO_A 1 encEx (Or.inl rfl)⟩

/-- One clockwise detent from the startup state. -/
theorem cw_cycle_init :
    RotaryEncoder.runEdges cwCycle initEncoder = (⟨some GPIO_B, 0, 0⟩, [-1]) := by decide

/-- One clockwise detent from the state every clockwise detent ends in. -/
theorem cw_cycle_again :
    RotaryEncoder.runEdges cwCycle ⟨some GPIO_B, 0, 0⟩ = (⟨some GPIO_B, 0, 0⟩, [-1]) := by
  decide

/-- One counter-clockwise detent from the startup state. -/
theorem ccw_cycle_init :
    RotaryEncoder.runEdges ccwCycle initEncoder = (⟨some GPIO_A, 0, 0⟩, [1]) := by decide

/-- One counter-clockwise detent from the state every counter-clockwise
detent ends in. -/
theorem ccw_cycle_again :
    RotaryEncoder.runEdges ccwCycle ⟨some GPIO_A, 0, 0⟩ = (⟨some GPIO_A, 0, 0⟩, [1]) := by
  decide

/-- Peeling one detent off a run of detents. -/
theorem detents_succ (n : Nat) (c : List (Nat × Nat)) :
    detents (n + 1) c = c ++ detents n c := by
  simp [detents, List.replicate_succ]

/-- Clockwise detents after the first all start from the same state. -/
theorem cw_detents_from_B (n : Nat) :
    RotaryEncoder.runEdges (detents n cwCycle) ⟨some GPIO_B, 0, 0⟩ =
      (⟨some GPIO_B, 0, 0⟩, List.replicate n (-1)) := by
  induction n with
  | zero => rfl
  | succ n ih =>
    rw [detents_succ, runEdges_append, cw_cycle_again]
    simp [ih, List.replicate_succ]

/-- Counter-clockwise detents after the first all start from the same
state. -/
theorem ccw_detents_from_A (n : Nat) :
    RotaryEncoder.runEdges (detents n ccwCycle) ⟨some GPIO_A, 0, 0⟩ =
      (⟨some GPIO_A, 0, 0⟩, List.replicate n (1)) := by
  induction n with
  | zero => rfl
  | succ n ih =>
    rw [detents_succ, runEdges_append, ccw_cycle_again]
    simp [ih, List.replicate_succ]

/-- C2: from the startup state, `n` clockwise Gray detents emit exactly `n`
turn events, all of the same fixed sign, and `n` reversed detents emit
exactly `n` events of the opposite sign (the intermediate sub-states emit
nothing, since each four-edge detent contributes exactly one event). -/
theorem c2_gray_detents (n : Nat) :
    (RotaryEncoder.runEdges (detents n cwCycle) initEncoder).2 = List.replicate n (-1) ∧
    (RotaryEncoder.runEdges (detents n ccwCycle) initEncoder).2 = List.replicate n 1 := by
  cases n with
  | zero => exact ⟨rfl, rfl⟩
  | succ n =>
    constructor
    · rw [detents_succ, runEdges_append, cw_cycle_init]
      simp [cw_detents_from_B, List.replicate_succ]
    · rw [detents_succ, runEdges_append, ccw_cycle_init]
      simp [ccw_detents_from_A, List.replicate_succ]

/-- C9 fails on the code: a notification on pin 99 (neither encoder pin)
does not fail fast; it silently records the level as channel B's level and
pin 99 as the last fired channel. -/
theorem c9_no_fail_fast :
    RotaryEncoder.callback encEx 99 1 = (⟨some 99, 1, 1⟩, none) ∧
    (⟨some 99, 1, 1⟩ : EncoderState) ≠ encEx := by decide

/-- C9 amended: a notification on a channel that is neither A nor B is
silently absorbed: the level is recorded into the B level field, the channel
becomes the last fired channel, channel A's level is untouched, and no event
is ever emitted; there is no failing path. -/
theorem c9_unknown_channel (ch lv : Nat) (s : EncoderState)
    (hA : ch ≠ GPIO_A) (hB : ch ≠ GPIO_B) :
    (RotaryEncoder.callback s ch lv).2 = none ∧
    (RotaryEncoder.callback s ch lv).1.levA = s.levA ∧
    (RotaryEncoder.callback s ch lv).1.levB = lv ∧
    (RotaryEncoder.callback s ch lv).1.lastGpio = some ch := by
  refine ⟨?_, ?_, ?_, callback_lastGpio s ch lv⟩
  · by_cases hd : s.lastGpio = some ch
    · exact callback_debounced_none s ch lv hd
    · rw [callback_emit s ch lv hd]; simp [hA, hB]
  · rw [callback_levA]; simp [hA]
  · rw [callback_levB]; simp [hA]

/-- Witness for the amended C9 at pin 99. -/
theorem c9_unknown_channel_witness :
    (99 ≠ GPIO_A) ∧ (99 ≠ GPIO_B) ∧
    ((RotaryEncoder.callback encEx 99 1).2 = none ∧
    (RotaryEncoder.callback encEx 99 1).1.levA = encEx.levA ∧
    (RotaryEncoder.callback encEx 99 1).1.levB = 1 ∧
    (RotaryEncoder.callback encEx 99 1).1.lastGpio = some 99) :=
  ⟨by decide, by decide, c9_unknown_channel 99 1 encEx (by decide) (by decide)⟩

/-! ### Volume lemmas -/

/-- The clamped volume lies in the configured range. -/
theorem clamp_range (v : Int) : 0 ≤ Volume.clamp v ∧ Volume.clamp v ≤ 100 := by
  simp only [Volume.clamp, VOL_MAX, VOL_MIN, max_def, min_def]
  split_ifs <;> omega

/-- The clamped volume is 0 exactly for non-positive requests. -/
theorem clamp_eq_zero_iff (v : Int) : Volume.clamp v = 0 ↔ v ≤ 0 := by
  simp only [Volume.clamp, VOL_MAX, VOL_MIN, max_def, min_def]
  split_ifs <;> omega

/-- C10: a setter call whose clamped value is nonzero stores exactly the
clamped value and issues only the set command; a setter call whose clamped
value is 0 (exactly the calls with `v ≤ 0`) is treated by `_sync` as `no
value supplied`, so it additionally queries the backend and stores and
forwards the backend's reported volume instead of 0. -/
theorem c10_zero_resync (v : Int) (s : VolState) (h : s.backendFail = false) :
    (Volume.clamp v = 0 ↔ v ≤ 0) ∧
    (Volume.clamp v ≠ 0 →
      Volume.set_volume s v =
        Except.ok ⟨Volume.clamp v, Volume.clamp v, s.backendMuted, false,
          s.cmds ++ [BCmd.setVol (Volume.clamp v)]⟩) ∧
    (Volume.clamp v = 0 →
      Volume.set_volume s v =
        Except.ok ⟨s.backendVol, s.backendVol, s.backendMuted, false,
          s.cmds ++ [BCmd.query, BCmd.setVol s.backendVol]⟩) := by
  refine ⟨clamp_eq_zero_iff v, fun h0 => ?_, fun h0 => ?_⟩ <;>
    simp [Volume.set_volume, Volume.sync, Volume.volumio, h, h0]

/-- Witness for C10 at `v = -3` from the healthy state at volume 50. -/
theorem c10_zero_resync_witness :
    volEx.backendFail = false ∧
    ((Volume.clamp (-3) = 0 ↔ (-3 : Int) ≤ 0) ∧
    (Volume.clamp (-3) ≠ 0 →
      Volume.set_volume volEx (-3) =
        Except.ok ⟨Volume.clamp (-3), Volume.clamp (-3), volEx.backendMuted, false,
          volEx.cmds ++ [BCmd.setVol (Volume.clamp (-3))]⟩) ∧
    (Volume.clamp (-3) = 0 →
      Volume.set_volume volEx (-3) =
        Except.ok ⟨volEx.backendVol, volEx.backendVol, volEx.backendMuted, false,
          volEx.cmds ++ [BCmd.query, BCmd.setVol volEx.backendVol]⟩)) :=
  ⟨rfl, c10_zero_resync (-3) volEx rfl⟩

/-- A setter call keeps local and backend volume in range. -/
theorem set_volume_preserves (v : Int) (s : VolState) (h : InRange s) :
    ERng (Volume.set_volume s v) := by
  obtain ⟨h1, h2, h3, h4⟩ := h
  obtain ⟨hc1, hc2⟩ := clamp_range v
  by_cases h0 : Volume.clamp v = 0 <;> by_cases hf : s.backendFail <;>
    simp [Volume.set_volume, Volume.sync, Volume.volumio, h0, hf, ERng, InRange] <;>
    omega

/-- Handling one queued delta keeps local and backend volume in range. -/
theorem handle_delta_preserves (d : Int) (s : VolState) (h : InRange s) :
    ERng (handle_delta d s) := by
  unfold handle_delta Volume.up Volume.down
  split_ifs <;> exact set_volume_preserves _ s h

/-- Draining any batch keeps local and backend volume in range, also at an
escaped exception. -/
theorem consume_queue_preserves (q : List Int) (s : VolState) (h : InRange s) :
    ERng (consume_queue q s) := by
  induction q generalizing s with
  | nil => simpa [ERng] using h
  | cons d rest ih =>
    have hd := handle_delta_preserves d s h
    simp only [consume_queue]
    cases hh : handle_delta d s with
    | ok s1 =>
      rw [hh] at hd
      simp only [ERng] at hd
      exact ih s1 hd
    | error e =>
      rw [hh] at hd
      simpa [ERng] using hd

/-- The range invariant bounds the stored volume of any outcome. -/
theorem ERng_exVolume (r : Except VolState VolState) (h : ERng r) :
    0 ≤ exVolume r ∧ exVolume r ≤ 100 := by
  cases r with
  | ok s =>
    simp only [ERng, InRange] at h
    exact ⟨h.1, h.2.1⟩
  | error e =>
    simp only [ERng, InRange] at h
    exact ⟨h.1, h.2.1⟩

/-- C4: for every sequence of turn deltas and every in-range starting state,
the stored volume after each apply (each prefix of the drained batch, and
also at an escaped exception) lies in `[0, 100]`. -/
theorem c4_clamp_invariant (q : List Int) (s : VolState) (h : InRange s) (k : Nat) :
    0 ≤ exVolume (consume_queue (q.take k) s) ∧
    exVolume (consume_queue (q.take k) s) ≤ 100 :=
  ERng_exVolume _ (consume_queue_preserves (q.take k) s h)

/-- Witness for C4 on the batch `[1, -200, 300]` after two applies. -/
theorem c4_clamp_invariant_witness :
    InRange volEx ∧
    (0 ≤ exVolume (consume_queue (([1, -200, 300] : List Int).take 2) volEx) ∧
    exVolume (consume_queue (([1, -200, 300] : List Int).take 2) volEx) ≤ 100) :=
  ⟨by unfold InRange; decide, c4_clamp_invariant [1, -200, 300] volEx (by unfold InRange; decide) 2⟩

set_option maxRecDepth 20000 in
/-- C3 fails on the code: from volume 50 in sync with the backend, ten
clockwise ticks reach volume 60, but sixty counter-clockwise ticks end at
volume 1, not 0, because the sixtieth tick computes `clamp(0) = 0` and
`_sync` then re-reads the backend (which still reports 1) instead of storing
0; the subsequent press issues exactly one toggle command and leaves the
volume unchanged at 1. -/
theorem c3_end_to_end_bug :
    exVolume (consume_queue (List.replicate 10 1) volEx) = 60 ∧
    c3after.volume = 1 ∧
    (Volume.toggle c3after).volume = 1 ∧
    (Volume.toggle c3after).cmds.count BCmd.toggle = 1 ∧
    c3after.cmds.count BCmd.toggle = 0 := by decide

/-- C5 fails on the code: handling a single counter-clockwise tick at
volume 1 issues two backend invocations, a query from `_sync` followed by
the set command, instead of exactly one. -/
theorem c5_two_invocations :
    handle_delta (-1) volLow = Except.ok ⟨1, 1, false, false, [BCmd.query, BCmd.setVol 1]⟩ ∧
    (exState (handle_delta (-1) volLow)).cmds.length = 2 := ⟨rfl, rfl⟩

/-- C7 fails on the code: with a failing backend, draining the batch
`[-1, 1]` from volume 1 raises inside the first apply and the error escapes
`consume_queue` uncaught, so the second event is never applied (the trace of
the escaped state holds only the failed query). -/
theorem c7_error_escapes :
    consume_queue [-1, 1] volFail = Except.error c7err := rfl

/-- C7 amended: an exception raised while applying one drained event is not
caught per-event: it propagates out of `consume_queue` immediately and the
remaining events of the batch are not processed. -/
theorem c7_error_propagates (d : Int) (rest : List Int) (s e : VolState)
    (h : handle_delta d s = Except.error e) :
    consume_queue (d :: rest) s = Except.error e := by
  simp [consume_queue, h]

/-- Witness for the amended C7 on a three-event batch. -/
theorem c7_error_propagates_witness :
    handle_delta (-1) volFail = Except.error c7err ∧
    consume_queue (-1 :: [1, 1]) volFail = Except.error c7err :=
  ⟨rfl, c7_error_propagates (-1) [1, 1] volFail c7err rfl⟩

/-- C6 fails on the code: the press callback performs a backend invocation
right in the producer context — it grows the command trace (with the toggle
command) and enqueues nothing. -/
theorem c6_press_invokes_backend :
    (on_press 0 sysEx).vol.cmds ≠ sysEx.vol.cmds ∧
    (on_press 0 sysEx).vol.cmds = [BCmd.toggle] ∧
    (on_press 0 sysEx).queue = [] := by decide

/-- C6 amended: the turn callback performs no backend invocation and only
appends the delta to the queue and sets the wake flag; the press callback
enqueues nothing: it issues exactly one toggle backend invocation directly
in the producer context and sets the wake flag. -/
theorem c6_producer_effects (delta : Int) (value : Nat) (s : SysState) :
    on_turn delta s = { s with queue := s.queue ++ [delta], wake := true } ∧
    (on_turn delta s).vol.cmds = s.vol.cmds ∧
    (on_press value s).vol.cmds = s.vol.cmds ++ [BCmd.toggle] ∧
    (on_press value s).queue = s.queue ∧
    (on_press value s).wake = true := by
  refine ⟨rfl, rfl, ?_, rfl, rfl⟩
  by_cases hf : s.vol.backendFail <;>
    simp [on_press, Volume.toggle, Volume.volumio, hf]

/-- C8 fails on the code: the raced state `c8bad` is reachable — the
consumer passes its final emptiness check, a turn is pushed (setting the
wake flag), and `EVENT.clear()` then wipes that wake — leaving the consumer
waiting on a cleared flag with a non-empty queue. -/
theorem c8_lost_wakeup :
    ReachableLoop volEx c8bad ∧
    c8bad.pc = LoopPC.waiting ∧ c8bad.sys.queue ≠ [] ∧ c8bad.sys.wake = false := by
  refine ⟨?_, rfl, by decide, rfl⟩
  have h1 : LStep (initLoop volEx) ⟨LoopPC.consuming, ⟨[], false, volEx⟩⟩ :=
    LStep.consumer _ _ (CStep.wake_return _)
  have h2 : LStep ⟨LoopPC.consuming, ⟨[], false, volEx⟩⟩ ⟨LoopPC.clearing, ⟨[], false, volEx⟩⟩ :=
    LStep.consumer _ _ (CStep.empty_check _ rfl)
  have h3 : LStep ⟨LoopPC.clearing, ⟨[], false, volEx⟩⟩ ⟨LoopPC.clearing, ⟨[1], true, volEx⟩⟩ :=
    LStep.push LoopPC.clearing ⟨[], false, volEx⟩ 1
  have h4 : LStep ⟨LoopPC.clearing, ⟨[1], true, volEx⟩⟩ c8bad :=
    LStep.consumer _ _ (CStep.clear ⟨[1], true, volEx⟩)
  exact Relation.ReflTransGen.tail
    (Relation.ReflTransGen.tail (Relation.ReflTransGen.tail
      (Relation.ReflTransGen.single h1) h2) h3) h4

/-- With a responsive backend, applying one delta always succeeds and keeps
the backend responsive. -/
theorem set_volume_ok_of_healthy (v : Int) (s : VolState) (h : s.backendFail = false) :
    ∃ s1, Volume.set_volume s v = Except.ok s1 ∧ s1.backendFail = false := by
  by_cases h0 : Volume.clamp v = 0 <;>
    simp [Volume.set_volume, Volume.sync, Volume.volumio, h, h0]

/-- With a responsive backend, `handle_delta` never raises and keeps the
backend responsive. -/
theorem handle_delta_ok_of_healthy (d : Int) (s : VolState) (h : s.backendFail = false) :
    ∃ s1, handle_delta d s = Except.ok s1 ∧ s1.backendFail = false := by
  unfold handle_delta Volume.up Volume.down
  split_ifs <;> exact set_volume_ok_of_healthy _ s h

/-- From inside `consume_queue`, consumer steps alone empty the queue when
the backend is responsive. -/
theorem consuming_drains (q : List Int) (w : Bool) (v : VolState)
    (h : v.backendFail = false) :
    ∃ s1 : LoopState, Relation.ReflTransGen CStep ⟨LoopPC.consuming, ⟨q, w, v⟩⟩ s1 ∧
      s1.sys.queue = [] := by
  induction q generalizing v with
  | nil => exact ⟨⟨LoopPC.consuming, ⟨[], w, v⟩⟩, Relation.ReflTransGen.refl, rfl⟩
  | cons d rest ih =>
    obtain ⟨v1, hd, hf⟩ := handle_delta_ok_of_healthy d v h
    obtain ⟨s1, hr, hq⟩ := ih v1 hf
    refine ⟨s1, Relation.ReflTransGen.head ?_ hr, hq⟩
    exact CStep.consume_ok ⟨d :: rest, w, v⟩ d rest v1 rfl hd

/-- C8 amended: the wake flag can be lost (see the raced state), but no
event is: from any system state whose consumer has not crashed and whose
backend is responsive, consumer steps alone — the wait always returns, at
the latest through its 1200-second timeout — reach a state with an empty
queue, so queued events are drained eventually rather than never. -/
theorem c8_drain_liveness (s : LoopState) (hf : s.sys.vol.backendFail = false)
    (hc : s.pc ≠ LoopPC.crashed) :
    ∃ s1 : LoopState, Relation.ReflTransGen CStep s s1 ∧ s1.sys.queue = [] := by
  obtain ⟨pc, q, w, v⟩ := s
  cases pc with
  | crashed => exact absurd rfl hc
  | consuming => exact consuming_drains q w v hf
  | waiting =>
    obtain ⟨s1, hr, hq⟩ := consuming_drains q w v hf
    exact ⟨s1, Relation.ReflTransGen.head (CStep.wake_return _) hr, hq⟩
  | clearing =>
    obtain ⟨s1, hr, hq⟩ := consuming_drains q false v hf
    exact ⟨s1, Relation.ReflTransGen.head (CStep.clear _)
      (Relation.ReflTransGen.head (CStep.wake_return _) hr), hq⟩

/-- Witness for the amended C8 at the raced state itself. -/
theorem c8_drain_liveness_witness :
    c8bad.sys.vol.backendFail = false ∧ c8bad.pc ≠ LoopPC.crashed ∧
    (∃ s1 : LoopState, Relation.ReflTransGen CStep c8bad s1 ∧ s1.sys.queue = []) :=
  ⟨rfl, by decide, c8_drain_liveness c8bad rfl (by decide)⟩
